import Mathlib

/-!
Verification development for the server core of a realtime multiplayer
snake game.  The definitions below are a shallow embedding of the
JavaScript source files `src/server/weapons.js` (weapon catalog and the
`Player` class), `src/server/lobby.js` (the `Lobby` class) and
`src/server/gameManager.js` (message routing), translated function by
function.  Modelling conventions:

* JS objects become structures; the insertion-ordered `Map` of players
  becomes a list in join order (JS `Map` iteration order).
* Object references are normalised into id-keyed updates: a mutation of a
  player object is modelled by rewriting the entry with that id in the
  containing lobby.  Player ids are opaque uuid strings in JS; they are
  modelled as naturals.
* `Math.random()` draws are passed in as explicit parameters (rational
  draws or candidate streams), so every function is deterministic in its
  inputs.
* Wall-clock reads (`Date.now()`) are passed in as an explicit `now`.
* `setTimeout`/`setInterval` scheduling is outside this embedding; only
  the immediate effect of each call is modelled.
* `Player.send` serialises a message over the websocket; the message
  content is not observable in any claim, so `send` is modelled by its
  only state effect: bumping `lastActivity` when the socket is open and
  the write does not throw.
-/

namespace SnakeGame

/-- A grid position or direction vector, the JS literal `{x, y}`. -/
structure Pt where
  x : Int
  y : Int
deriving DecidableEq, Repr

/-- Lobby lifecycle states, the JS strings in `lobby.js`. -/
inductive GameState where
  | waiting
  | starting
  | playing
  | finished
deriving DecidableEq, Repr

/-- `gameSettings` object of `Lobby`, with the constructor defaults. -/
structure GameSettings where
  boardSize : Int := 20
  gameSpeed : Nat := 150
  weaponsEnabled : Bool := true
  maxGameTime : Nat := 300000
  winCondition : String := "last_standing"
deriving DecidableEq, Repr

/-- A food item as built in `Lobby.generateFood` (the random uuid is not
modelled; it is not observable in any claim). -/
structure Food where
  x : Int
  y : Int
  ftype : String := "normal"
  value : Int := 10
deriving DecidableEq, Repr

/-- A weapon pickup item as built in `Lobby.generateWeapons`. -/
structure WeaponItem where
  x : Int
  y : Int
  wtype : String
deriving DecidableEq, Repr

/-- The `Player` class of `player.js`.  The fields `speedMultiplier`,
`isInvincible`, `canPhaseThrough` and `scoreMultiplier` are absent from
the JS constructor (they only come into being when `applyWeaponEffect`
assigns them); they are modelled as always-present fields whose initial
value is the inert default.  `wsOpen` models
`ws && ws.readyState === ws.OPEN`, and `sendOk` models `ws.send` not
throwing. -/
structure Player where
  id : Nat
  name : String := "Player"
  lobbyId : Option Nat := none
  isReady : Bool := false
  isAlive : Bool := true
  score : Int := 0
  snake : List Pt := []
  direction : Pt := { x := 1, y := 0 }
  weapon : Option String := none
  kills : Nat := 0
  deaths : Nat := 0
  gamesPlayed : Nat := 0
  gamesWon : Nat := 0
  speedMultiplier : ℚ := 1
  isInvincible : Bool := false
  canPhaseThrough : Bool := false
  scoreMultiplier : ℚ := 1
  lastActivity : Nat := 0
  wsOpen : Bool := true
  sendOk : Bool := true
deriving DecidableEq, Repr

/-- `Player.send(message)`: when the socket is open and the write does
not throw, the method stamps `lastActivity = Date.now()`.  The message
content is not modelled. -/
def Player.send (now : Nat) (p : Player) : Player :=
  if p.wsOpen && p.sendOk then { p with lastActivity := now } else p

/-- `Player.updateDirection(newDirection)`: accept unless the new vector
is the exact negation of the current one.  Returns the updated player
and the JS boolean result. -/
def Player.updateDirection (p : Player) (newDirection : Pt) : Player × Bool :=
  let opposite : Pt := { x := -p.direction.x, y := -p.direction.y }
  if newDirection.x ≠ opposite.x ∨ newDirection.y ≠ opposite.y then
    ({ p with direction := newDirection }, true)
  else
    (p, false)

/-- `Player.moveSnake()`: prepend `head + direction` when alive with a
nonempty snake. -/
def Player.moveSnake (p : Player) : Player :=
  match p.snake, p.isAlive with
  | head :: rest, true =>
      { p with snake :=
          { x := head.x + p.direction.x, y := head.y + p.direction.y } :: head :: rest }
  | _, _ => p

/-- `Player.growSnake()`: the comment in the source says the snake
already grew when the head was prepended; the method only adds the flat
10 points. -/
def Player.growSnake (p : Player) : Player :=
  { p with score := p.score + 10 }

/-- `Player.removeTail()`: pop the last segment. -/
def Player.removeTail (p : Player) : Player :=
  { p with snake := p.snake.dropLast }

/-- `Player.kill(killerId)`: mark dead, count the death, then send the
`killed` message (which bumps `lastActivity`). -/
def Player.kill (now : Nat) (p : Player) (killerId : Option Nat) : Player :=
  let _ := killerId
  Player.send now { p with isAlive := false, deaths := p.deaths + 1 }

/-- `Player.awardKill(victimId)`: one kill, 50 points, then the
`kill_awarded` message. -/
def Player.awardKill (now : Nat) (p : Player) (victimId : Nat) : Player :=
  let _ := victimId
  Player.send now { p with kills := p.kills + 1, score := p.score + 50 }

/-- `Player.resetForGame()`: exactly the five assignments in the source;
no other field is touched. -/
def Player.resetForGame (p : Player) : Player :=
  { p with snake := [], isAlive := true, isReady := false,
           weapon := none, direction := { x := 1, y := 0 } }

/-- The heterogeneous `effect` objects of the weapon catalog; absent
fields are `none`. -/
structure WeaponEffect where
  speedMultiplier : Option ℚ := none
  invincible : Option Bool := none
  range : Option Nat := none
  damage : Option Nat := none
  targetReduction : Option ℚ := none
  phaseThrough : Option Bool := none
  attractionRadius : Option Nat := none
  attractionForce : Option Nat := none
  freezeOthers : Option Bool := none
  foodCount : Option Nat := none
  spawnRadius : Option Nat := none
  safeZoneOnly : Option Bool := none
  scoreMultiplier : Option ℚ := none
deriving DecidableEq, Repr

/-- One entry of the `WEAPONS` catalog in `weapons.js`. -/
structure WeaponDef where
  name : String
  wtype : String
  description : String
  duration : Nat
  effect : WeaponEffect
  color : String
  icon : String
  rarity : String
deriving DecidableEq, Repr

/-- The `WEAPONS` catalog, in source (insertion) order, which is the
order seen by `Object.keys` and `Object.entries`. -/
def WEAPONS : List (String × WeaponDef) :=
  [ ("speed_boost",
     { name := "Speed Boost", wtype := "speed_boost",
       description := "Temporarily increases snake movement speed",
       duration := 5000, effect := { speedMultiplier := some (3/2) },
       color := "#FFD700", icon := "bolt", rarity := "common" }),
    ("shield",
     { name := "Shield", wtype := "shield",
       description := "Provides temporary invincibility against collisions",
       duration := 3000, effect := { invincible := some true },
       color := "#87CEEB", icon := "shield", rarity := "rare" }),
    ("laser",
     { name := "Laser", wtype := "laser",
       description := "Shoots a laser beam that destroys obstacles in a line",
       duration := 0, effect := { range := some 10, damage := some 1 },
       color := "#FF0000", icon := "laser", rarity := "uncommon" }),
    ("shrink",
     { name := "Shrink Ray", wtype := "shrink",
       description := "Temporarily reduces the size of other players",
       duration := 4000, effect := { targetReduction := some (1/2), range := some 5 },
       color := "#9932CC", icon := "shrink", rarity := "rare" }),
    ("ghost",
     { name := "Ghost Mode", wtype := "ghost",
       description := "Allows passing through other snakes without collision",
       duration := 2000, effect := { phaseThrough := some true },
       color := "#DDA0DD", icon := "ghost", rarity := "legendary" }),
    ("magnet",
     { name := "Magnet", wtype := "magnet",
       description := "Attracts nearby food items automatically",
       duration := 6000, effect := { attractionRadius := some 3, attractionForce := some 1 },
       color := "#DC143C", icon := "magnet", rarity := "uncommon" }),
    ("freeze",
     { name := "Time Freeze", wtype := "freeze",
       description := "Temporarily freezes all other players",
       duration := 2000, effect := { freezeOthers := some true },
       color := "#00FFFF", icon := "freeze", rarity := "legendary" }),
    ("food_bomb",
     { name := "Food Bomb", wtype := "food_bomb",
       description := "Creates multiple food items around your position",
       duration := 0, effect := { foodCount := some 5, spawnRadius := some 2 },
       color := "#32CD32", icon := "bomb", rarity := "uncommon" }),
    ("teleport",
     { name := "Teleport", wtype := "teleport",
       description := "Instantly teleport to a random safe location",
       duration := 0, effect := { safeZoneOnly := some true },
       color := "#8A2BE2", icon := "swirl", rarity := "rare" }),
    ("double_score",
     { name := "Double Score", wtype := "double_score",
       description := "All points earned are doubled for a short time",
       duration := 10000, effect := { scoreMultiplier := some 2 },
       color := "#FFD700", icon := "coin", rarity := "rare" }) ]

/-- `WEAPONS[key]` lookup. -/
def lookupWeapon (key : String) : Option WeaponDef :=
  (WEAPONS.find? (fun kv => decide (kv.1 = key))).map Prod.snd

/-- The keys of the catalog, in `Object.keys` order. -/
def weaponTypes : List String := WEAPONS.map Prod.fst

/-- `RARITY_WEIGHTS` in source order. -/
def RARITY_WEIGHTS : List (String × ℚ) :=
  [("common", 50), ("uncommon", 30), ("rare", 15), ("legendary", 5)]

/-- `totalWeight` of `getRandomWeapon`: the reduce-sum of the weights. -/
def totalWeight : ℚ :=
  (RARITY_WEIGHTS.map Prod.snd).foldl (fun sum weight => sum + weight) 0

/-- The rarity walk of `getRandomWeapon`: subtract each weight in turn;
once the running value drops to 0 or below, draw uniformly inside that
rarity bucket (the JS index draw `Math.floor(u1 * length)`); an empty
bucket lets the loop continue, and falling off the end returns `none`.
An out-of-range bucket index cannot occur for `0 ≤ u1 < 1`; that branch
is mapped to `none` as well. -/
def pickByRarity (u1 : ℚ) : ℚ → List (String × ℚ) → Option String
  | _, [] => none
  | random, (rarity, weight) :: rest =>
    let random := random - weight
    if random ≤ 0 then
      let bucket := WEAPONS.filter (fun kv => decide (kv.2.rarity = rarity))
      if bucket.length > 0 then
        match bucket.get? (Nat.floor (u1 * (bucket.length : ℚ))) with
        | some kv => some kv.1
        | none => none
      else pickByRarity u1 random rest
    else pickByRarity u1 random rest

/-- `getRandomWeapon()` with its two `Math.random()` draws made
explicit: `u0` scales `totalWeight`, `u1` picks inside the bucket.  The
final line of the source is the fallback to `speed_boost`. -/
def getRandomWeapon (u0 u1 : ℚ) : String :=
  match pickByRarity u1 (u0 * totalWeight) RARITY_WEIGHTS with
  | some key => key
  | none => "speed_boost"

/-- `applyWeaponEffect(player, weaponType, gameState)` from
`weapons.js`.  The repository never passes a `gameState` argument with
the `generateFoodAt`/`findSafePosition` callbacks (indeed nothing in the
repository calls this function at all), so the `food_bomb` and
`teleport` guards fail and those cases do nothing to the player.  The
`setTimeout` reversions are scheduling and are not modelled.  Returns
the player and the JS boolean result. -/
def applyWeaponEffect (p : Player) (weaponType : String) : Player × Bool :=
  match lookupWeapon weaponType with
  | none => (p, false)
  | some weapon =>
    if weapon.wtype = "speed_boost" then
      match weapon.effect.speedMultiplier with
      | some v => ({ p with speedMultiplier := v }, true)
      | none => (p, true)
    else if weapon.wtype = "shield" then
      ({ p with isInvincible := true }, true)
    else if weapon.wtype = "ghost" then
      ({ p with canPhaseThrough := true }, true)
    else if weapon.wtype = "double_score" then
      match weapon.effect.scoreMultiplier with
      | some v => ({ p with scoreMultiplier := v }, true)
      | none => (p, true)
    else if weapon.wtype = "food_bomb" then
      (p, true)
    else if weapon.wtype = "teleport" then
      (p, true)
    else
      (p, false)

/-- The `Lobby` class of `lobby.js`, with the constructor defaults.
`endedWinner` is a modelling artifact: it records the `winner` field of
the last `game_ended` broadcast (`none` while no game has ended,
`some none` for a null winner, `some (some pid)` for a sole survivor). -/
structure Lobby where
  id : Nat := 0
  maxPlayers : Nat := 4
  players : List Player := []
  gameState : GameState := GameState.waiting
  gameSettings : GameSettings := {}
  food : List Food := []
  weapons : List WeaponItem := []
  gameStartTime : Nat := 0
  createdBy : Option Nat := none
  isPrivate : Bool := false
  endedWinner : Option (Option Nat) := none
deriving DecidableEq, Repr

/-- Rewrite the entry with the id of `p` (the embedding of mutating a
player object held by the lobby map). -/
def setById (ps : List Player) (p : Player) : List Player :=
  ps.map (fun q => if q.id = p.id then p else q)

/-- `Map.set(player.id, player)` on the players map: replace in place if
the key is present, otherwise append (insertion order). -/
def upsert (ps : List Player) (p : Player) : List Player :=
  if ps.any (fun q => decide (q.id = p.id)) then setById ps p else ps ++ [p]

/-- Write back one mutated player into the lobby. -/
def Lobby.setPlayer (lb : Lobby) (p : Player) : Lobby :=
  { lb with players := setById lb.players p }

/-- `Lobby.getPlayer(playerId)`. -/
def Lobby.getPlayer (lb : Lobby) (pid : Nat) : Option Player :=
  lb.players.find? (fun p => decide (p.id = pid))

/-- `Lobby.getAlivePlayers()`. -/
def Lobby.getAlivePlayers (lb : Lobby) : List Player :=
  lb.players.filter (fun p => p.isAlive)

/-- `Lobby.broadcast(message)`: send one message to every member; only
the `lastActivity` effect of each `Player.send` is observable here. -/
def Lobby.broadcast (now : Nat) (lb : Lobby) : Lobby :=
  { lb with players := lb.players.map (Player.send now) }

/-- `Lobby.checkWinCondition()`: last player standing, or the game time
exceeded `maxGameTime` (truncated subtraction agrees with the JS number
arithmetic for the reachable `now ≥ gameStartTime`). -/
def Lobby.checkWinCondition (now : Nat) (lb : Lobby) : Bool :=
  decide (lb.getAlivePlayers.length ≤ 1) ||
  decide (now - lb.gameStartTime ≥ lb.gameSettings.maxGameTime)

/-- `Lobby.endGame()`: stop the loop, state `finished`, a sole survivor
wins (`gamesWon++`), broadcast `game_ended` with that winner (recorded
in `endedWinner`).  The 10 s delayed `resetLobby` is scheduling and not
part of this step. -/
def Lobby.endGame (now : Nat) (lb : Lobby) : Lobby :=
  let lb := { lb with gameState := GameState.finished }
  match lb.getAlivePlayers with
  | [winner] =>
      let lb := lb.setPlayer { winner with gamesWon := winner.gamesWon + 1 }
      Lobby.broadcast now { lb with endedWinner := some (some winner.id) }
  | _ =>
      Lobby.broadcast now { lb with endedWinner := some none }

/-- `Lobby.resetLobby()`: clear items, reset every player, back to
`waiting`, broadcast `lobby_reset`. -/
def Lobby.resetLobby (now : Nat) (lb : Lobby) : Lobby :=
  let lb := { lb with gameState := GameState.waiting, gameStartTime := 0,
                      food := [], weapons := [] }
  Lobby.broadcast now { lb with players := lb.players.map Player.resetForGame }

/-- `Lobby.addPlayer(player)`: reject when full or mid-game; otherwise
insert, reset the player, record the creator when the lobby had none,
broadcast `player_joined`. -/
def Lobby.addPlayer (now : Nat) (lb : Lobby) (p : Player) : Lobby :=
  if lb.players.length ≥ lb.maxPlayers then lb
  else if lb.gameState = GameState.playing then lb
  else
    let p := Player.resetForGame { p with lobbyId := some lb.id }
    let lb := { lb with players := upsert lb.players p }
    let lb := if lb.createdBy = none then { lb with createdBy := some p.id } else lb
    Lobby.broadcast now lb

/-- The ownership-transfer step of `removePlayer`: when the creator is
the departed player and members remain, hand ownership to the first
player in iteration order (`players.values().next().value`); the source
guards with `players.size > 0`, modelled by the empty match arm. -/
def Lobby.removeTransfer (lb : Lobby) (pid : Nat) : Lobby :=
  if lb.createdBy = some pid then
    match lb.players with
    | next :: _ => { lb with createdBy := some next.id }
    | [] => lb
  else lb

/-- `Lobby.removePlayer(playerId)`: detach; transfer ownership to the
first remaining member when the creator left and someone remains;
broadcast `player_left`; end the game when a playing lobby drops to at
most one alive player. -/
def Lobby.removePlayer (now : Nat) (lb : Lobby) (pid : Nat) : Lobby :=
  if lb.players.any (fun q => decide (q.id = pid)) then
    let lb := { lb with players := lb.players.filter (fun q => decide (q.id ≠ pid)) }
    let lb := lb.removeTransfer pid
    let lb := Lobby.broadcast now lb
    if lb.gameState = GameState.playing ∧ lb.getAlivePlayers.length ≤ 1 then
      lb.endGame now
    else lb
  else lb

/-- `Lobby.isPositionOccupied(x, y)`: any alive segment, food or weapon
at the cell. -/
def Lobby.isPositionOccupied (lb : Lobby) (x y : Int) : Bool :=
  lb.players.any (fun p =>
    p.isAlive && p.snake.any (fun s => decide (s.x = x ∧ s.y = y))) ||
  lb.food.any (fun f => decide (f.x = x ∧ f.y = y)) ||
  lb.weapons.any (fun w => decide (w.x = x ∧ w.y = y))

/-- The do/while of `generateFood`/`generateWeapons`: draw candidate
`cands i`, count the attempt, loop while the candidate is occupied and
fewer than 100 attempts were made.  Returns the last candidate and the
attempt count; `fuel` only forces termination and is always supplied
large enough for the `fuel = 0` branch to be unreachable. -/
def spawnLoop (occ : Pt → Bool) (cands : Nat → Pt) : Nat → Nat → Pt × Nat
  | i, 0 => (cands i, i + 1)
  | i, fuel + 1 =>
    let c := cands i
    if occ c ∧ i + 1 < 100 then spawnLoop occ cands (i + 1) fuel
    else (c, i + 1)

/-- One iteration of `Lobby.generateFood`: rejection-sample a cell, and
push the food item only when the loop ended within the attempt budget. -/
def Lobby.generateFoodOne (lb : Lobby) (cands : Nat → Pt) : Lobby :=
  let r := spawnLoop (fun c => lb.isPositionOccupied c.x c.y) cands 0 100
  if r.2 < 100 then
    { lb with food := lb.food ++ [{ x := r.1.x, y := r.1.y }] }
  else lb

/-- `Lobby.generateFood(count)`: `count` independent iterations, each
seeing the items pushed by the previous ones. -/
def Lobby.generateFood (lb : Lobby) (cands : Nat → Nat → Pt) : Nat → Lobby
  | 0 => lb
  | n + 1 => Lobby.generateFood (lb.generateFoodOne (cands 0)) (fun i => cands (i + 1)) n

/-- One iteration of `Lobby.generateWeapons`: same rejection sampling;
the weapon type of each attempt is an index draw into `weaponTypes`
(`Math.floor(u * length)`, modelled as a stream of indices reduced
modulo the length; the list is nonempty so `getD` never falls back). -/
def Lobby.generateWeaponsOne (lb : Lobby) (cands : Nat → Pt) (tIdx : Nat → Nat) : Lobby :=
  let r := spawnLoop (fun c => lb.isPositionOccupied c.x c.y) cands 0 100
  if r.2 < 100 then
    { lb with weapons := lb.weapons ++
        [{ x := r.1.x, y := r.1.y,
           wtype := weaponTypes.getD (tIdx (r.2 - 1) % weaponTypes.length) "speed_boost" }] }
  else lb

/-- `Lobby.generateWeapons(count)`. -/
def Lobby.generateWeapons (lb : Lobby) (cands : Nat → Nat → Pt)
    (tIdx : Nat → Nat → Nat) : Nat → Lobby
  | 0 => lb
  | n + 1 =>
      Lobby.generateWeapons (lb.generateWeaponsOne (cands 0) (tIdx 0))
        (fun i => cands (i + 1)) (fun i => tIdx (i + 1)) n

/-- The segment scan `head.x === segment.x && head.y === segment.y`
over a snake, first match wins. -/
def hitsCell (head : Pt) : List Pt → Bool
  | [] => false
  | s :: rest => if head = s then true else hitsCell head rest

/-- The self-collision loop of `checkCollisions`: indices 1 and up of
the (already moved, not yet trimmed) snake. -/
def selfHit (head : Pt) : List Pt → Bool
  | [] => false
  | _ :: rest => hitsCell head rest

/-- The other-players `forEach` of `checkCollisions`.  The `return`
inside the callback only leaves that callback, so the walk continues
over the remaining players: every other alive player with a segment at
the head cell kills the mover (again) and is awarded a kill.  Returns
the rewritten player list (mover entry left stale) and the mover. -/
def othersPass (now : Nat) (pid : Nat) (head : Pt) :
    List Player → Player → List Player × Player
  | [], mover => ([], mover)
  | o :: rest, mover =>
    if o.id ≠ pid ∧ o.isAlive ∧ hitsCell head o.snake then
      let mover := Player.kill now mover (some o.id)
      let o := Player.awardKill now o pid
      let r := othersPass now pid head rest mover
      (o :: r.1, r.2)
    else
      let r := othersPass now pid head rest mover
      (o :: r.1, r.2)

/-- The food `filter` of `checkCollisions`: every food item under the
head is removed and `growSnake` runs for each. -/
def foodPass (head : Pt) : List Food → Player → List Food × Player
  | [], p => ([], p)
  | f :: rest, p =>
    if head.x = f.x ∧ head.y = f.y then
      foodPass head rest p.growSnake
    else
      let r := foodPass head rest p
      (f :: r.1, r.2)

/-- The weapon `filter` of `checkCollisions`: each weapon item under
the head is removed, stored as the equipped weapon, and a
`weapon_acquired` message is sent. -/
def weaponPass (now : Nat) (head : Pt) :
    List WeaponItem → Player → List WeaponItem × Player
  | [], p => ([], p)
  | w :: rest, p =>
    if head.x = w.x ∧ head.y = w.y then
      weaponPass now head rest (Player.send now { p with weapon := some w.wtype })
    else
      let r := weaponPass now head rest p
      (w :: r.1, r.2)

/-- `Lobby.checkCollisions(player)`, for the player with id `pid`
(already moved this tick).  Order as in the source: wall, self, other
players, food, the always-true tail trim, weapons.  A dead or absent
player id, or an empty snake, leaves the lobby unchanged (the JS code
would fault on an empty snake; that state is unreachable for a player
being ticked). -/
def Lobby.checkCollisions (now : Nat) (lb : Lobby) (pid : Nat) : Lobby :=
  match lb.getPlayer pid with
  | none => lb
  | some player =>
    match player.snake with
    | [] => lb
    | head :: _ =>
      if head.x < 0 ∨ head.x ≥ lb.gameSettings.boardSize ∨
         head.y < 0 ∨ head.y ≥ lb.gameSettings.boardSize then
        lb.setPlayer (Player.kill now player none)
      else if selfHit head player.snake then
        lb.setPlayer (Player.kill now player none)
      else
        let op := othersPass now pid head lb.players player
        let fp := foodPass head lb.food op.2
        let originalLength := fp.2.snake.length
        let trimmed := if fp.2.snake.length = originalLength then fp.2.removeTail else fp.2
        let wp := weaponPass now head lb.weapons trimmed
        { lb with players := setById op.1 wp.2, food := fp.1, weapons := wp.1 }

/-- Move the player with id `pid` (`player.moveSnake()` through the
shared reference in the players map). -/
def Lobby.movePlayerById (lb : Lobby) (pid : Nat) : Lobby :=
  match lb.getPlayer pid with
  | none => lb
  | some p => lb.setPlayer p.moveSnake

/-- The per-tick random draws of `updateGame`, made explicit:
`doFood`/`doWeapon` are the two Bernoulli trials, the rest are the
candidate streams of the spawners. -/
structure SpawnRands where
  doFood : Bool := false
  doWeapon : Bool := false
  foodCands : Nat → Nat → Pt := fun _ _ => { x := 0, y := 0 }
  weaponCands : Nat → Nat → Pt := fun _ _ => { x := 0, y := 0 }
  weaponTypeIdx : Nat → Nat → Nat := fun _ _ => 0

/-- `Lobby.updateGame()`, one tick: snapshot the alive players, then in
lobby iteration order move each and resolve its collisions; evaluate the
win condition (ending the game skips spawning and the update broadcast);
otherwise maybe spawn food and weapons and broadcast `game_update`. -/
def Lobby.updateGame (now : Nat) (r : SpawnRands) (lb : Lobby) : Lobby :=
  if lb.gameState ≠ GameState.playing then lb
  else
    let aliveIds := lb.getAlivePlayers.map (fun p => p.id)
    let lb := aliveIds.foldl
      (fun l pid => Lobby.checkCollisions now (l.movePlayerById pid) pid) lb
    if lb.checkWinCondition now then lb.endGame now
    else
      let lb := if r.doFood then lb.generateFood r.foodCands 1 else lb
      let lb := if lb.gameSettings.weaponsEnabled && r.doWeapon then
                  lb.generateWeapons r.weaponCands r.weaponTypeIdx 1
                else lb
      Lobby.broadcast now lb

/-- The body of `Lobby.handleWeaponUse(player)` restricted to the one
object it touches.  The switch only has empty cases (comments in place
of effects), so the sole state change is `player.weapon = null` - and
even that is skipped when the stored key is not in the catalog
(`if (!weapon) return`). -/
def handleWeaponUseOnPlayer (p : Player) : Player :=
  match p.weapon with
  | none => p
  | some key =>
    match lookupWeapon key with
    | none => p
    | some _ => { p with weapon := none }

/-- `Lobby.handleWeaponUse(player)` through the players map. -/
def Lobby.handleWeaponUse (lb : Lobby) (pid : Nat) : Lobby :=
  match lb.getPlayer pid with
  | none => lb
  | some player => lb.setPlayer (handleWeaponUseOnPlayer player)

/-- The `data` payload of a `player_input` message: a direction change
(with the vector present) or a weapon use. -/
inductive InputData where
  | direction (d : Pt)
  | useWeapon
deriving DecidableEq, Repr

/-- `Lobby.handlePlayerInput(playerId, input)`: ignore unless the player
is a member, alive, and the lobby is playing; a direction input goes to
`updateDirection`, `use_weapon` goes to `handleWeaponUse` when a weapon
is held. -/
def Lobby.handlePlayerInput (lb : Lobby) (pid : Nat) (input : InputData) : Lobby :=
  match lb.getPlayer pid with
  | none => lb
  | some player =>
    if player.isAlive = false ∨ lb.gameState ≠ GameState.playing then lb
    else
      match input with
      | InputData.direction d => lb.setPlayer (player.updateDirection d).1
      | InputData.useWeapon =>
          if player.weapon.isSome then lb.handleWeaponUse pid else lb

/-- The inbound message shapes of `GameManager.handleMessage` modelled
here (the subset the claims quantify over): `connect_player`,
`player_input`, `get_lobbies`, `get_player_stats`, and an unknown
type. -/
inductive ClientMsg where
  | connectPlayer (name : Option String)
  | playerInput (input : InputData)
  | getLobbies
  | getPlayerStats
  | unknownType (t : String)
deriving DecidableEq, Repr

/-- `GameManager.handleMessage(ws, message)` for a known session,
followed through the handler it dispatches to, projected onto the
session object (in JS the session entry and the lobby member entry are
the same object; `lobbyOf` models `this.lobbies.get`).  Observable
state effects on the session:

* `connect_player`: optionally set the name (1 to 20 chars), then reply
  `connection_confirmed` (a `Player.send`).
* `player_input`: forwarded to the lobby when the session is in one;
  neither `updateDirection` nor `handleWeaponUse` sends anything.
* `get_lobbies` / `get_player_stats`: reply with a `Player.send`.
* unknown types: reply with an `error` message (a `Player.send`).

No branch of `handleMessage` assigns `lastActivity` directly; the only
way it moves is through `Player.send`. -/
def GameManager.handleMessage (now : Nat) (lobbyOf : Nat → Option Lobby)
    (p : Player) (msg : ClientMsg) : Player :=
  match msg with
  | ClientMsg.connectPlayer name =>
      let p := match name with
               | some n => if 0 < n.length ∧ n.length ≤ 20 then { p with name := n } else p
               | none => p
      Player.send now p
  | ClientMsg.playerInput input =>
      match p.lobbyId with
      | none => p
      | some lid =>
        match lobbyOf lid with
        | none => p
        | some lb =>
          if p.isAlive = false ∨ lb.gameState ≠ GameState.playing then p
          else
            match input with
            | InputData.direction d => (p.updateDirection d).1
            | InputData.useWeapon =>
                if p.weapon.isSome then handleWeaponUseOnPlayer p else p
  | ClientMsg.getLobbies => Player.send now p
  | ClientMsg.getPlayerStats => Player.send now p
  | ClientMsg.unknownType _ => Player.send now p

/-! ## Reachability of lobby membership states

The membership state of a lobby (its players list and `createdBy`) is
mutated only by `addPlayer` and `removePlayer`; the other lobby methods
never touch membership.  A reachable membership state is the fold of a
sequence of such operations over a freshly constructed lobby. -/

/-- `new Lobby(id, maxPlayers)`: all other fields take the constructor
defaults. -/
def mkLobby (i m : Nat) : Lobby :=
  { id := i, maxPlayers := m }

/-- A membership operation on a lobby. -/
inductive LobbyOp where
  | add (p : Player)
  | remove (pid : Nat)
deriving Repr

/-- Apply one membership operation. -/
def Lobby.applyOp (now : Nat) (lb : Lobby) : LobbyOp → Lobby
  | LobbyOp.add p => lb.addPlayer now p
  | LobbyOp.remove pid => lb.removePlayer now pid

/-- Apply a sequence of membership operations. -/
def Lobby.applyOps (now : Nat) (lb : Lobby) (ops : List LobbyOp) : Lobby :=
  ops.foldl (Lobby.applyOp now) lb

/-- Traces along which no `removePlayer` empties the lobby (the lobby
stays continuously inhabited once inhabited). -/
def goodTraceB (now : Nat) : Lobby → List LobbyOp → Bool
  | _, [] => true
  | lb, op :: rest =>
    let lb' := lb.applyOp now op
    (match op with
     | LobbyOp.remove _ => decide (lb'.players ≠ [])
     | LobbyOp.add _ => true) && goodTraceB now lb' rest

/-- The claimed invariant: a non-empty lobby's `createdBy` names a
current member. -/
def createdByMember (lb : Lobby) : Bool :=
  lb.players.isEmpty ||
  (match lb.createdBy with
   | some cid => lb.players.any (fun p => decide (p.id = cid))
   | none => false)

/-- The inductive strengthening of `createdByMember`: an empty lobby has
no creator recorded, and a non-empty one records a member. -/
def creatorInv (lb : Lobby) : Prop :=
  (lb.players = [] → lb.createdBy = none) ∧
  (lb.players ≠ [] → ∃ q ∈ lb.players, lb.createdBy = some q.id)

/-! ## Concrete instances used by the individual claims -/

/-- C1 scenario: player 1 one cell left of a food item. -/
def c1A : Player :=
  { id := 1, snake := [⟨5,5⟩, ⟨4,5⟩, ⟨3,5⟩], direction := ⟨1,0⟩ }

/-- C1 scenario: a second alive player far away, so the game does not
end on the observed tick. -/
def c1B : Player :=
  { id := 2, snake := [⟨15,15⟩, ⟨15,16⟩, ⟨15,17⟩], direction := ⟨0,-1⟩ }

/-- C1 scenario lobby: playing, one food item at the cell player 1 is
about to enter. -/
def c1Lobby : Lobby :=
  { gameState := GameState.playing, players := [c1A, c1B],
    food := [{ x := 6, y := 5 }] }

/-- C2 scenario: player 1 moving right toward (10,10). -/
def c2A : Player :=
  { id := 1, snake := [⟨9,10⟩, ⟨8,10⟩, ⟨7,10⟩], direction := ⟨1,0⟩ }

/-- C2 scenario: player 2 moving left toward (10,10). -/
def c2B : Player :=
  { id := 2, snake := [⟨11,10⟩, ⟨12,10⟩, ⟨13,10⟩], direction := ⟨-1,0⟩ }

/-- C2 scenario lobby: both heads land on (10,10) in the same tick. -/
def c2Lobby : Lobby :=
  { gameState := GameState.playing, players := [c2A, c2B] }

/-- C3 scenario: a player holding a `speed_boost`. -/
def c3Player : Player :=
  { id := 1, weapon := some "speed_boost" }

/-- C3 scenario lobby. -/
def c3Lobby : Lobby :=
  { gameState := GameState.playing, players := [c3Player] }

/-- C4 scenario: the mover, already advanced onto (10,10). -/
def c4P : Player :=
  { id := 1, snake := [⟨10,10⟩, ⟨9,10⟩, ⟨8,10⟩], direction := ⟨1,0⟩ }

/-- C4 scenario: second player with a segment (its head) on (10,10). -/
def c4Q : Player :=
  { id := 2, snake := [⟨10,10⟩, ⟨10,11⟩, ⟨10,12⟩], direction := ⟨0,-1⟩ }

/-- C4 scenario: third player with a segment (its head) on (10,10). -/
def c4R : Player :=
  { id := 3, snake := [⟨10,10⟩, ⟨10,9⟩, ⟨10,8⟩], direction := ⟨0,1⟩ }

/-- C4 scenario lobby. -/
def c4Lobby : Lobby :=
  { gameState := GameState.playing, players := [c4P, c4Q, c4R] }

/-- C6 counterexample trace: the creator joins, leaves (emptying the
lobby), and a different player joins before the empty-lobby sweep. -/
def c6ops : List LobbyOp :=
  [LobbyOp.add { id := 1 }, LobbyOp.remove 1, LobbyOp.add { id := 2 }]

/-- C6 witness trace: two joins, then the creator leaves while the other
member remains. -/
def c6wops : List LobbyOp :=
  [LobbyOp.add { id := 1 }, LobbyOp.add { id := 2 }, LobbyOp.remove 1]

/-- C7 witness: an empty lobby and a candidate stream hitting (1,1). -/
def c7Free : Lobby := {}

/-- C7 witness candidate stream: always (1,1). -/
def c7FreeCands : Nat → Pt := fun _ => ⟨1,1⟩

/-- C7 witness: a lobby whose alive snake occupies (0,0). -/
def c7Occ : Lobby :=
  { players := [{ id := 1, snake := [⟨0,0⟩] }] }

/-- C7 witness candidate stream: always the occupied cell (0,0). -/
def c7OccCands : Nat → Pt := fun _ => ⟨0,0⟩

/-- C8 scenario: the playing lobby session 1 is in. -/
def c8Lobby : Lobby := { id := 7, gameState := GameState.playing }

/-- C8 scenario: an alive session in lobby 7 with `lastActivity = 0`. -/
def c8Player : Player := { id := 1, lobbyId := some 7, lastActivity := 0 }

/-- C8 scenario lobby registry. -/
def c8LobbyOf : Nat → Option Lobby := fun _ => some c8Lobby

/-- C9 counterexample: a player with every weapon effect flag active. -/
def c9Player : Player :=
  { id := 1, snake := [⟨1,1⟩], isReady := true, weapon := some "shield",
    speedMultiplier := 3/2, isInvincible := true, canPhaseThrough := true,
    scoreMultiplier := 2 }

/-! ## Projection lemmas for the player mutators -/

theorem Player.send_id (now : Nat) (p : Player) : (p.send now).id = p.id := by
  unfold Player.send; split <;> rfl

theorem Player.send_isAlive (now : Nat) (p : Player) :
    (p.send now).isAlive = p.isAlive := by
  unfold Player.send; split <;> rfl

theorem Player.send_deaths (now : Nat) (p : Player) :
    (p.send now).deaths = p.deaths := by
  unfold Player.send; split <;> rfl

theorem Player.send_kills (now : Nat) (p : Player) :
    (p.send now).kills = p.kills := by
  unfold Player.send; split <;> rfl

theorem Player.send_score (now : Nat) (p : Player) :
    (p.send now).score = p.score := by
  unfold Player.send; split <;> rfl

theorem Player.send_snake (now : Nat) (p : Player) :
    (p.send now).snake = p.snake := by
  unfold Player.send; split <;> rfl

theorem Player.send_gamesWon (now : Nat) (p : Player) :
    (p.send now).gamesWon = p.gamesWon := by
  unfold Player.send; split <;> rfl

/-! ## Claim C5: direction updates -/

/-- Claim C5: a direction update is rejected, leaving the player
unchanged and returning false, exactly when the proposed vector is the
componentwise negation of the current direction; otherwise the direction
becomes exactly the proposed vector. -/
theorem updateDirection_rejects_iff_reversal (p : Player) (nd : Pt) :
    p.updateDirection nd =
      if nd = { x := -p.direction.x, y := -p.direction.y } then (p, false)
      else ({ p with direction := nd }, true) := by
  obtain ⟨nx, ny⟩ := nd
  unfold Player.updateDirection
  by_cases hx : nx = -p.direction.x <;> by_cases hy : ny = -p.direction.y <;>
    simp [hx, hy, Pt.mk.injEq]

/-! ## Claim C9: resetForGame and the effect flags -/

/-- Claim C9 counterexample: on a player with active effect flags,
`resetForGame` leaves every one of them at its active value, not at the
inactive default. -/
theorem resetForGame_keeps_effect_flags_cex :
    c9Player.resetForGame.speedMultiplier ≠ 1 ∧
    c9Player.resetForGame.isInvincible ≠ false ∧
    c9Player.resetForGame.canPhaseThrough ≠ false ∧
    c9Player.resetForGame.scoreMultiplier ≠ 1 := by
  refine ⟨?_, ?_, ?_, ?_⟩ <;> norm_num [c9Player, Player.resetForGame]

/-- Claim C9 (amended): `resetForGame` clears the snake, the ready flag
and the held weapon and restores `isAlive` and direction (1,0), but it
does not touch `speedMultiplier`, `isInvincible`, `canPhaseThrough` or
`scoreMultiplier`. -/
theorem resetForGame_fields (p : Player) :
    p.resetForGame.snake = [] ∧
    p.resetForGame.isAlive = true ∧
    p.resetForGame.isReady = false ∧
    p.resetForGame.weapon = none ∧
    p.resetForGame.direction = { x := 1, y := 0 } ∧
    p.resetForGame.speedMultiplier = p.speedMultiplier ∧
    p.resetForGame.isInvincible = p.isInvincible ∧
    p.resetForGame.canPhaseThrough = p.canPhaseThrough ∧
    p.resetForGame.scoreMultiplier = p.scoreMultiplier := by
  exact ⟨rfl, rfl, rfl, rfl, rfl, rfl, rfl, rfl, rfl⟩

/-! ## Claim C3: use_weapon applies no effect -/

/-- Claim C3: handling `use_weapon` for a player holding `speed_boost`
leaves every field except the cleared weapon slot unchanged - in
particular `speedMultiplier` stays 1 and `isInvincible` stays false -
while the catalog effect the claim describes lives in the uncalled
`applyWeaponEffect`, which would set `speedMultiplier = 1.5`
(resp. `isInvincible = true` for `shield`). -/
theorem handleWeaponUse_only_clears_weapon :
    (c3Lobby.handleWeaponUse 1).getPlayer 1 = some { c3Player with weapon := none } ∧
    (applyWeaponEffect c3Player "speed_boost").1 =
      { c3Player with speedMultiplier := 3/2 } ∧
    (applyWeaponEffect c3Player "shield").1 =
      { c3Player with isInvincible := true } := by
  exact ⟨rfl, rfl, rfl⟩

/-! ## Claim C1: food pickup still trims the tail -/

/-- Claim C1 (failing input evaluation): in `c1Lobby`, player 1 moves
onto the food cell (6,5).  The food item is removed and the flat 10
points are added, but the tail is trimmed in the same tick, so the snake
stays at length 3 instead of growing to 4. -/
theorem food_pickup_trims_tail_eval :
    ((c1Lobby.updateGame 1000 {}).getPlayer 1).map
        (fun p => (p.snake, p.score)) =
      some ([⟨6,5⟩, ⟨5,5⟩, ⟨4,5⟩], (10 : Int)) ∧
    (c1Lobby.updateGame 1000 {}).food = [] ∧
    (c1Lobby.updateGame 1000 {}).gameState = GameState.playing := by
  decide

/-! ## Claim C2 counterexample: head-on collision is sequential -/

/-- Claim C2 counterexample: both heads land on (10,10) in the same
tick, yet player 1 (earlier in iteration order) survives and is
credited a kill, only player 2 dies, and the game ends with player 1 as
winner - not both dead with a null winner. -/
theorem head_on_collision_cex :
    ((c2Lobby.updateGame 1000 {}).getPlayer 1).map
        (fun p => (p.isAlive, p.kills, p.deaths)) = some (true, 1, 0) ∧
    ((c2Lobby.updateGame 1000 {}).getPlayer 2).map
        (fun p => (p.isAlive, p.kills, p.deaths)) = some (false, 0, 1) ∧
    (c2Lobby.updateGame 1000 {}).endedWinner = some (some 1) := by
  decide

/-! ## Claim C4 counterexample: every overlapping owner is credited -/

/-- Claim C4 counterexample: player 1 moves onto a cell covered by
segments of players 2 and 3.  Both owners are credited a kill (the
`forEach` in the source cannot break), and the victim death counter is
incremented once per crediting owner - not only the first in iteration
order. -/
theorem kill_credit_all_owners_cex :
    ((c4Lobby.checkCollisions 0 1).getPlayer 2).map
        (fun p => (p.kills, p.score)) = some (1, (50 : Int)) ∧
    ((c4Lobby.checkCollisions 0 1).getPlayer 3).map
        (fun p => (p.kills, p.score)) = some (1, (50 : Int)) ∧
    ((c4Lobby.checkCollisions 0 1).getPlayer 1).map
        (fun p => (p.isAlive, p.deaths)) = some (false, 2) := by
  decide

/-! ## Claim C6 counterexample: stale creator after a rejoin -/

/-- Claim C6 counterexample: the creator joins, leaves (the lobby is
momentarily empty), and a different player joins; the lobby is non-empty
but `createdBy` still names the departed player. -/
theorem stale_creator_cex :
    (Lobby.applyOps 0 (mkLobby 0 4) c6ops).players ≠ [] ∧
    (Lobby.applyOps 0 (mkLobby 0 4) c6ops).createdBy = some 1 ∧
    createdByMember (Lobby.applyOps 0 (mkLobby 0 4) c6ops) = false := by
  decide

/-! ## Claim C8 counterexample: player_input does not bump activity -/

/-- Claim C8 counterexample: a `player_input` message handled for a live
session in a playing lobby leaves `lastActivity` at its old value
instead of the current time. -/
theorem player_input_no_activity_bump_cex :
    (GameManager.handleMessage 777 c8LobbyOf c8Player
        (ClientMsg.playerInput (InputData.direction ⟨0,1⟩))).lastActivity = 0 ∧
    (GameManager.handleMessage 777 c8LobbyOf c8Player
        (ClientMsg.playerInput (InputData.direction ⟨0,1⟩))).lastActivity ≠ 777 := by
  decide

/-! ## Claim C10: getRandomWeapon is total and in-catalog -/

theorem pickByRarity_mem (u1 : ℚ) :
    ∀ (l : List (String × ℚ)) (random : ℚ) (k : String),
      pickByRarity u1 random l = some k → k ∈ weaponTypes := by
  intro l
  induction l with
  | nil =>
    intro random k h
    simp [pickByRarity] at h
  | cons hd rest ih =>
    intro random k h
    obtain ⟨rarity, weight⟩ := hd
    simp only [pickByRarity] at h
    split at h
    · split at h
      · split at h
        · rename_i kv hget
          obtain rfl : kv.1 = k := by injection h
          have hb : kv ∈ WEAPONS.filter (fun kv => decide (kv.2.rarity = rarity)) :=
            List.get?_mem hget
          have hw : kv ∈ WEAPONS := List.mem_of_mem_filter hb
          exact List.mem_map_of_mem Prod.fst hw
        · exact absurd h (by simp)
      · exact ih _ _ h
    · exact ih _ _ h

/-- Claim C10: `getRandomWeapon` is total and, whatever its two random
draws are - including a weighted walk that falls off the end, where the
final fallback `speed_boost` is returned - the result is a key of the
`WEAPONS` catalog. -/
theorem getRandomWeapon_valid (u0 u1 : ℚ) : getRandomWeapon u0 u1 ∈ weaponTypes := by
  rcases h : pickByRarity u1 (u0 * totalWeight) RARITY_WEIGHTS with _ | k
  · rw [getRandomWeapon, h]
    decide
  · rw [getRandomWeapon, h]
    exact pickByRarity_mem u1 _ _ k h

/-! ## Claim C7: spawn rejection sampling -/

theorem spawnLoop_spec (occ : Pt → Bool) (cands : Nat → Pt) :
    ∀ (fuel i : Nat), 100 ≤ i + 1 + fuel →
      ((spawnLoop occ cands i fuel).2 < 100 →
        occ (spawnLoop occ cands i fuel).1 = false) ∧
      ((∀ j, j < 100 → occ (cands j) = true) →
        100 ≤ (spawnLoop occ cands i fuel).2) := by
  intro fuel
  induction fuel with
  | zero =>
    intro i hb
    constructor
    · intro hlt
      simp only [spawnLoop] at hlt
      omega
    · intro _
      simp only [spawnLoop]
      omega
  | succ fuel ih =>
    intro i hb
    simp only [spawnLoop]
    split
    · exact ih (i + 1) (by omega)
    · rename_i hcond
      constructor
      · intro hlt
        simp only at hlt
        cases hoc : occ (cands i) with
        | false => rfl
        | true => exact absurd ⟨hoc, by omega⟩ hcond
      · intro hall
        simp only
        by_cases hi : i + 1 < 100
        · exact absurd ⟨hall i (by omega), hi⟩ hcond
        · omega

/-- Claim C7: a spawn attempt (food or weapon) adds an item only at a
cell unoccupied by any alive segment, food or weapon at placement time,
and when all 100 candidate draws are occupied the spawn is skipped and
the item list is unchanged. -/
theorem spawn_occupancy (lb : Lobby) (fc wc : Nat → Pt) (tIdx : Nat → Nat) :
    (∀ f ∈ (lb.generateFoodOne fc).food,
        f ∈ lb.food ∨ lb.isPositionOccupied f.x f.y = false) ∧
    ((∀ j, j < 100 → lb.isPositionOccupied (fc j).x (fc j).y = true) →
        (lb.generateFoodOne fc).food = lb.food) ∧
    (∀ w ∈ (lb.generateWeaponsOne wc tIdx).weapons,
        w ∈ lb.weapons ∨ lb.isPositionOccupied w.x w.y = false) ∧
    ((∀ j, j < 100 → lb.isPositionOccupied (wc j).x (wc j).y = true) →
        (lb.generateWeaponsOne wc tIdx).weapons = lb.weapons) := by
  have hf := spawnLoop_spec (fun c => lb.isPositionOccupied c.x c.y) fc 100 0 (by omega)
  have hw := spawnLoop_spec (fun c => lb.isPositionOccupied c.x c.y) wc 100 0 (by omega)
  refine ⟨?_, ?_, ?_, ?_⟩
  · intro f hfm
    by_cases h1 : (spawnLoop (fun c => lb.isPositionOccupied c.x c.y) fc 0 100).2 < 100
    · simp only [Lobby.generateFoodOne, if_pos h1] at hfm
      rcases List.mem_append.mp hfm with hin | hnew
      · exact Or.inl hin
      · right
        rcases List.mem_singleton.mp hnew with rfl
        exact hf.1 h1
    · simp only [Lobby.generateFoodOne, if_neg h1] at hfm
      exact Or.inl hfm
  · intro hall
    have h2 := hf.2 hall
    simp only [Lobby.generateFoodOne, if_neg (by omega : ¬ (spawnLoop
      (fun c => lb.isPositionOccupied c.x c.y) fc 0 100).2 < 100)]
  · intro w hwm
    by_cases h1 : (spawnLoop (fun c => lb.isPositionOccupied c.x c.y) wc 0 100).2 < 100
    · simp only [Lobby.generateWeaponsOne, if_pos h1] at hwm
      rcases List.mem_append.mp hwm with hin | hnew
      · exact Or.inl hin
      · right
        rcases List.mem_singleton.mp hnew with rfl
        exact hw.1 h1
    · simp only [Lobby.generateWeaponsOne, if_neg h1] at hwm
      exact Or.inl hwm
  · intro hall
    have h2 := hw.2 hall
    simp only [Lobby.generateWeaponsOne, if_neg (by omega : ¬ (spawnLoop
      (fun c => lb.isPositionOccupied c.x c.y) wc 0 100).2 < 100)]

/-- Claim C7 witness: on the empty lobby the spawn at the free cell
(1,1) is indeed at an unoccupied cell, and on a lobby whose snake covers
the constant candidate cell (0,0) the spawn is skipped. -/
theorem spawn_occupancy_witness :
    (({ x := 1, y := 1 } : Food) ∈ c7Free.food ∨
       c7Free.isPositionOccupied 1 1 = false) ∧
    (c7Occ.generateFoodOne c7OccCands).food = c7Occ.food :=
  ⟨(spawn_occupancy c7Free c7FreeCands c7FreeCands (fun _ => 0)).1
      { x := 1, y := 1 } (by decide),
   (spawn_occupancy c7Occ c7OccCands c7OccCands (fun _ => 0)).2.1
      (fun _ _ => rfl)⟩

/-! ## Claim C8 (amended): activity is bumped only by replies -/

theorem Player.send_lastActivity (now : Nat) (p : Player)
    (h1 : p.wsOpen = true) (h2 : p.sendOk = true) :
    (p.send now).lastActivity = now := by
  unfold Player.send
  rw [h1, h2]
  rfl

theorem updateDirection_lastActivity (p : Player) (d : Pt) :
    (p.updateDirection d).1.lastActivity = p.lastActivity := by
  simp only [Player.updateDirection]
  split <;> rfl

theorem handleWeaponUseOnPlayer_lastActivity (p : Player) :
    (handleWeaponUseOnPlayer p).lastActivity = p.lastActivity := by
  unfold handleWeaponUseOnPlayer
  split
  · rfl
  · split
    · rfl
    · rfl

/-- Claim C8 (amended): `handleMessage` never writes `lastActivity`
itself; the timestamp moves exactly when the handler replies to the
session over its open socket.  `connect_player`, `get_lobbies`,
`get_player_stats` and unknown message types all reply and hence stamp
the current time, while `player_input` sends nothing and leaves
`lastActivity` unchanged, whatever the input and lobby state. -/
theorem handleMessage_activity (now : Nat) (lobbyOf : Nat → Option Lobby)
    (p : Player) (hopen : p.wsOpen = true) (hok : p.sendOk = true) :
    (∀ nm, (GameManager.handleMessage now lobbyOf p
        (ClientMsg.connectPlayer nm)).lastActivity = now) ∧
    (GameManager.handleMessage now lobbyOf p
        ClientMsg.getLobbies).lastActivity = now ∧
    (GameManager.handleMessage now lobbyOf p
        ClientMsg.getPlayerStats).lastActivity = now ∧
    (∀ s, (GameManager.handleMessage now lobbyOf p
        (ClientMsg.unknownType s)).lastActivity = now) ∧
    (∀ input, (GameManager.handleMessage now lobbyOf p
        (ClientMsg.playerInput input)).lastActivity = p.lastActivity) := by
  refine ⟨?_, ?_, ?_, ?_, ?_⟩
  · intro nm
    rcases nm with _ | n
    · exact Player.send_lastActivity now p hopen hok
    · show (Player.send now (if 0 < n.length ∧ n.length ≤ 20
          then { p with name := n } else p)).lastActivity = now
      split
      · exact Player.send_lastActivity now _ hopen hok
      · exact Player.send_lastActivity now _ hopen hok
  · exact Player.send_lastActivity now p hopen hok
  · exact Player.send_lastActivity now p hopen hok
  · intro s
    exact Player.send_lastActivity now p hopen hok
  · intro input
    simp only [GameManager.handleMessage]
    split
    · rfl
    · split
      · rfl
      · split
        · rfl
        · split
          · exact updateDirection_lastActivity p _
          · split
            · exact handleWeaponUseOnPlayer_lastActivity p
            · rfl

/-- Claim C8 witness: at a concrete open session the modeled message
types behave as the amended claim states. -/
theorem handleMessage_activity_witness :
    (GameManager.handleMessage 777 c8LobbyOf c8Player
        ClientMsg.getLobbies).lastActivity = 777 ∧
    (GameManager.handleMessage 777 c8LobbyOf c8Player
        (ClientMsg.playerInput InputData.useWeapon)).lastActivity =
      c8Player.lastActivity :=
  ⟨(handleMessage_activity 777 c8LobbyOf c8Player rfl rfl).2.1,
   (handleMessage_activity 777 c8LobbyOf c8Player rfl rfl).2.2.2.2
     InputData.useWeapon⟩

/-! ## Claim C6 (amended): creator membership along never-emptied traces -/

theorem setById_id_pres (p q : Player) :
    (if q.id = p.id then p else q).id = q.id := by
  split
  · rename_i h
    exact h.symm
  · rfl

theorem exists_id_of_map (f : Player → Player) (hf : ∀ q, (f q).id = q.id)
    (ps : List Player) (cid : Nat) :
    (∃ q ∈ ps, q.id = cid) → ∃ q ∈ ps.map f, q.id = cid := by
  rintro ⟨q, hq, hid⟩
  exact ⟨f q, List.mem_map_of_mem f hq, by rw [hf q, hid]⟩

theorem creatorInv_of_map (lb lbTwo : Lobby) (f : Player → Player)
    (hf : ∀ q, (f q).id = q.id)
    (hp : lbTwo.players = lb.players.map f)
    (hc : lbTwo.createdBy = lb.createdBy)
    (h : creatorInv lb) : creatorInv lbTwo := by
  constructor
  · intro he
    rw [hp, List.map_eq_nil_iff] at he
    rw [hc]
    exact h.1 he
  · intro hne
    have hlb : lb.players ≠ [] := by
      intro hh
      apply hne
      rw [hp, hh]
      rfl
    obtain ⟨q, hq, hqid⟩ := h.2 hlb
    refine ⟨f q, ?_, ?_⟩
    · rw [hp]
      exact List.mem_map_of_mem f hq
    · rw [hc, hf q]
      exact hqid

theorem creatorInv_congr (lb lbTwo : Lobby)
    (hp : lbTwo.players = lb.players) (hc : lbTwo.createdBy = lb.createdBy)
    (h : creatorInv lb) : creatorInv lbTwo := by
  constructor
  · intro he
    rw [hp] at he
    rw [hc]
    exact h.1 he
  · intro hne
    rw [hp] at hne
    rw [hp, hc]
    exact h.2 hne

theorem creatorInv_broadcast (now : Nat) (lb : Lobby) (h : creatorInv lb) :
    creatorInv (lb.broadcast now) :=
  creatorInv_of_map lb _ (Player.send now) (Player.send_id now) rfl rfl h

theorem creatorInv_setPlayer (lb : Lobby) (p : Player) (h : creatorInv lb) :
    creatorInv (lb.setPlayer p) :=
  creatorInv_of_map lb _ (fun q => if q.id = p.id then p else q)
    (setById_id_pres p) rfl rfl h

theorem creatorInv_endGame (now : Nat) (lb : Lobby) (h : creatorInv lb) :
    creatorInv (lb.endGame now) := by
  unfold Lobby.endGame
  dsimp only
  split
  · exact creatorInv_broadcast now _
      (creatorInv_congr _ _ rfl rfl
        (creatorInv_setPlayer _ _ (creatorInv_congr lb _ rfl rfl h)))
  · exact creatorInv_broadcast now _ (creatorInv_congr lb _ rfl rfl h)

theorem broadcast_players_nil (now : Nat) (lb : Lobby) :
    ((lb.broadcast now).players = []) ↔ (lb.players = []) := by
  simp [Lobby.broadcast, List.map_eq_nil_iff]

theorem endGame_players_nil (now : Nat) (lb : Lobby) :
    ((lb.endGame now).players = []) ↔ (lb.players = []) := by
  unfold Lobby.endGame
  dsimp only
  split
  · simp [Lobby.broadcast, Lobby.setPlayer, setById, List.map_eq_nil_iff]
  · simp [Lobby.broadcast, List.map_eq_nil_iff]

theorem upsert_ne_nil (ps : List Player) (p : Player) : upsert ps p ≠ [] := by
  unfold upsert
  split
  · rename_i hany
    obtain ⟨x, hx, _⟩ := List.any_eq_true.mp hany
    intro he
    unfold setById at he
    rw [List.map_eq_nil_iff] at he
    rw [he] at hx
    exact absurd hx (List.not_mem_nil x)
  · simp

theorem self_mem_upsert (ps : List Player) (p : Player) : p ∈ upsert ps p := by
  unfold upsert
  split
  · rename_i hany
    obtain ⟨x, hx, hxid⟩ := List.any_eq_true.mp hany
    have hxid2 : x.id = p.id := of_decide_eq_true hxid
    unfold setById
    refine List.mem_map.mpr ⟨x, hx, ?_⟩
    simp [hxid2]
  · exact List.mem_append_right _ (List.mem_singleton.mpr rfl)

theorem exists_id_upsert (ps : List Player) (p : Player) (cid : Nat)
    (h : ∃ q ∈ ps, q.id = cid) : ∃ q ∈ upsert ps p, q.id = cid := by
  unfold upsert
  split
  · unfold setById
    exact exists_id_of_map _ (setById_id_pres p) ps cid h
  · obtain ⟨q, hq, hid⟩ := h
    exact ⟨q, List.mem_append_left _ hq, hid⟩

theorem creatorInv_addPlayer (now : Nat) (lb : Lobby) (p : Player)
    (h : creatorInv lb) : creatorInv (lb.addPlayer now p) := by
  unfold Lobby.addPlayer
  split
  · exact h
  · split
    · exact h
    · apply creatorInv_broadcast
      split
      · rename_i hcb
        constructor
        · intro he
          exact absurd he (upsert_ne_nil _ _)
        · intro _
          exact ⟨_, self_mem_upsert _ _, rfl⟩
      · rename_i hcb
        have hne : lb.players ≠ [] := by
          intro he
          exact hcb (h.1 he)
        obtain ⟨q, hq, hqid⟩ := h.2 hne
        constructor
        · intro he
          exact absurd he (upsert_ne_nil _ _)
        · intro _
          obtain ⟨q2, hq2, hq2id⟩ :=
            exists_id_upsert lb.players _ q.id ⟨q, hq, rfl⟩
          exact ⟨q2, hq2, by rw [hqid, hq2id]⟩

theorem removeTransfer_players (lb : Lobby) (pid : Nat) :
    (lb.removeTransfer pid).players = lb.players := by
  unfold Lobby.removeTransfer
  split
  · split
    · rfl
    · rfl
  · rfl

theorem creatorInv_removeTransfer (lb : Lobby) (pid : Nat)
    (hne : lb.players ≠ [])
    (h2 : lb.createdBy ≠ some pid → ∃ q ∈ lb.players, lb.createdBy = some q.id) :
    creatorInv (lb.removeTransfer pid) := by
  unfold Lobby.removeTransfer
  split
  · split
    · rename_i next rest heq
      constructor
      · intro he
        rw [heq] at he
        exact absurd he (List.cons_ne_nil next rest)
      · intro _
        refine ⟨next, ?_, rfl⟩
        rw [heq]
        exact List.mem_cons_self next rest
    · rename_i heq
      exact absurd heq hne
  · rename_i hncb
    obtain ⟨q, hq, hqid⟩ := h2 hncb
    constructor
    · intro he
      exact absurd he hne
    · intro _
      exact ⟨q, hq, hqid⟩

theorem creatorInv_removePlayer (now : Nat) (lb : Lobby) (pid : Nat)
    (h : creatorInv lb) (hne : (lb.removePlayer now pid).players ≠ []) :
    creatorInv (lb.removePlayer now pid) := by
  by_cases hmem : lb.players.any (fun q => decide (q.id = pid)) = true
  case neg =>
    unfold Lobby.removePlayer
    rw [if_neg hmem]
    exact h
  case pos =>
    unfold Lobby.removePlayer at hne ⊢
    rw [if_pos hmem] at hne ⊢
    dsimp only at hne ⊢
    have hlbne : lb.players ≠ [] := by
      obtain ⟨x, hx, _⟩ := List.any_eq_true.mp hmem
      exact List.ne_nil_of_mem hx
    have hps1 : (lb.players.filter (fun q => decide (q.id ≠ pid))) ≠ [] := by
      intro he
      apply hne
      split
      · rw [endGame_players_nil, broadcast_players_nil, removeTransfer_players]
        exact he
      · rw [broadcast_players_nil, removeTransfer_players]
        exact he
    have hcore : creatorInv
        (({ lb with players := lb.players.filter (fun q => decide (q.id ≠ pid)) }
          : Lobby).removeTransfer pid) := by
      apply creatorInv_removeTransfer
      · exact hps1
      · intro hncb
        obtain ⟨q, hq, hqid⟩ := h.2 hlbne
        have hqpid : q.id ≠ pid := by
          intro hh
          apply hncb
          show lb.createdBy = some pid
          rw [hqid, hh]
        refine ⟨q, ?_, hqid⟩
        show q ∈ lb.players.filter (fun q => decide (q.id ≠ pid))
        exact List.mem_filter.mpr ⟨hq, decide_eq_true hqpid⟩
    split
    · exact creatorInv_endGame now _ (creatorInv_broadcast now _ hcore)
    · exact creatorInv_broadcast now _ hcore

theorem creatorInv_applyOp (now : Nat) (lb : Lobby) (op : LobbyOp)
    (h : creatorInv lb)
    (hcond : ∀ pid, op = LobbyOp.remove pid → (lb.applyOp now op).players ≠ []) :
    creatorInv (lb.applyOp now op) := by
  cases op with
  | add p => exact creatorInv_addPlayer now lb p h
  | remove pid => exact creatorInv_removePlayer now lb pid h (hcond pid rfl)

theorem creatorInv_trace (now : Nat) :
    ∀ (ops : List LobbyOp) (lb : Lobby), creatorInv lb →
      goodTraceB now lb ops = true → creatorInv (Lobby.applyOps now lb ops) := by
  intro ops
  induction ops with
  | nil =>
    intro lb h _
    exact h
  | cons op rest ih =>
    intro lb h hg
    simp only [goodTraceB, Bool.and_eq_true] at hg
    have h1 : creatorInv (lb.applyOp now op) := by
      apply creatorInv_applyOp now lb op h
      intro pid hop
      subst hop
      exact of_decide_eq_true hg.1
    exact ih (lb.applyOp now op) h1 hg.2

/-- Claim C6 (amended): for every lobby state reached from a fresh lobby
by `addPlayer`/`removePlayer` operations along which no removal empties
the lobby, a non-empty lobby's `createdBy` names a current member.  (The
claim as stated fails once the lobby is emptied and rejoined, because
`addPlayer` only sets the creator when `createdBy` is null, not when the
recorded creator has left; see the counterexample.) -/
theorem creator_member_of_goodTrace (now i m : Nat) (ops : List LobbyOp)
    (hg : goodTraceB now (mkLobby i m) ops = true) :
    createdByMember (Lobby.applyOps now (mkLobby i m) ops) = true := by
  have hinv : creatorInv (Lobby.applyOps now (mkLobby i m) ops) :=
    creatorInv_trace now ops (mkLobby i m)
      ⟨fun _ => rfl, fun hne => absurd rfl hne⟩ hg
  unfold createdByMember
  by_cases hemp : (Lobby.applyOps now (mkLobby i m) ops).players = []
  · simp [hemp]
  · obtain ⟨q, hq, hqid⟩ := hinv.2 hemp
    rw [hqid]
    simp only [Bool.or_eq_true]
    right
    rw [List.any_eq_true]
    exact ⟨q, hq, by simp⟩

/-- Claim C6 witness: a trace where the creator leaves while another
member remains keeps the invariant (ownership is transferred). -/
theorem creator_member_witness :
    goodTraceB 0 (mkLobby 0 4) c6wops = true ∧
    createdByMember (Lobby.applyOps 0 (mkLobby 0 4) c6wops) = true :=
  ⟨by decide, creator_member_of_goodTrace 0 0 4 c6wops (by decide)⟩


@[simp] theorem Player.kill_id (now : Nat) (p : Player) (k : Option Nat) :
    (p.kill now k).id = p.id := by
  unfold Player.kill
  rw [Player.send_id]

@[simp] theorem Player.kill_isAlive (now : Nat) (p : Player) (k : Option Nat) :
    (p.kill now k).isAlive = false := by
  unfold Player.kill
  rw [Player.send_isAlive]

@[simp] theorem Player.kill_deaths (now : Nat) (p : Player) (k : Option Nat) :
    (p.kill now k).deaths = p.deaths + 1 := by
  unfold Player.kill
  rw [Player.send_deaths]

@[simp] theorem Player.kill_kills (now : Nat) (p : Player) (k : Option Nat) :
    (p.kill now k).kills = p.kills := by
  unfold Player.kill
  rw [Player.send_kills]

@[simp] theorem Player.kill_score (now : Nat) (p : Player) (k : Option Nat) :
    (p.kill now k).score = p.score := by
  unfold Player.kill
  rw [Player.send_score]

@[simp] theorem Player.kill_snake (now : Nat) (p : Player) (k : Option Nat) :
    (p.kill now k).snake = p.snake := by
  unfold Player.kill
  rw [Player.send_snake]

@[simp] theorem Player.kill_gamesWon (now : Nat) (p : Player) (k : Option Nat) :
    (p.kill now k).gamesWon = p.gamesWon := by
  unfold Player.kill
  rw [Player.send_gamesWon]

@[simp] theorem Player.awardKill_id (now : Nat) (p : Player) (v : Nat) :
    (p.awardKill now v).id = p.id := by
  unfold Player.awardKill
  rw [Player.send_id]

@[simp] theorem Player.awardKill_isAlive (now : Nat) (p : Player) (v : Nat) :
    (p.awardKill now v).isAlive = p.isAlive := by
  unfold Player.awardKill
  rw [Player.send_isAlive]

@[simp] theorem Player.awardKill_kills (now : Nat) (p : Player) (v : Nat) :
    (p.awardKill now v).kills = p.kills + 1 := by
  unfold Player.awardKill
  rw [Player.send_kills]

@[simp] theorem Player.awardKill_score (now : Nat) (p : Player) (v : Nat) :
    (p.awardKill now v).score = p.score + 50 := by
  unfold Player.awardKill
  rw [Player.send_score]

@[simp] theorem Player.awardKill_deaths (now : Nat) (p : Player) (v : Nat) :
    (p.awardKill now v).deaths = p.deaths := by
  unfold Player.awardKill
  rw [Player.send_deaths]

@[simp] theorem Player.awardKill_snake (now : Nat) (p : Player) (v : Nat) :
    (p.awardKill now v).snake = p.snake := by
  unfold Player.awardKill
  rw [Player.send_snake]

@[simp] theorem Player.awardKill_gamesWon (now : Nat) (p : Player) (v : Nat) :
    (p.awardKill now v).gamesWon = p.gamesWon := by
  unfold Player.awardKill
  rw [Player.send_gamesWon]

@[simp] theorem Player.removeTail_id (p : Player) : p.removeTail.id = p.id := rfl

@[simp] theorem Player.removeTail_isAlive (p : Player) : p.removeTail.isAlive = p.isAlive := rfl

@[simp] theorem Player.removeTail_deaths (p : Player) : p.removeTail.deaths = p.deaths := rfl

@[simp] theorem Player.removeTail_kills (p : Player) : p.removeTail.kills = p.kills := rfl

@[simp] theorem Player.removeTail_score (p : Player) : p.removeTail.score = p.score := rfl

@[simp] theorem Player.removeTail_gamesWon (p : Player) : p.removeTail.gamesWon = p.gamesWon := rfl

@[simp] theorem foodPass_snd_id (head : Pt) (fs : List Food) (p : Player) :
    (foodPass head fs p).2.id = p.id := by
  induction fs generalizing p with
  | nil => rfl
  | cons f rest ih =>
    unfold foodPass
    split
    · exact ih p.growSnake
    · exact ih p

@[simp] theorem foodPass_snd_isAlive (head : Pt) (fs : List Food) (p : Player) :
    (foodPass head fs p).2.isAlive = p.isAlive := by
  induction fs generalizing p with
  | nil => rfl
  | cons f rest ih =>
    unfold foodPass
    split
    · exact ih p.growSnake
    · exact ih p

@[simp] theorem foodPass_snd_deaths (head : Pt) (fs : List Food) (p : Player) :
    (foodPass head fs p).2.deaths = p.deaths := by
  induction fs generalizing p with
  | nil => rfl
  | cons f rest ih =>
    unfold foodPass
    split
    · exact ih p.growSnake
    · exact ih p

@[simp] theorem weaponPass_snd_id (now : Nat) (head : Pt) (ws : List WeaponItem) (p : Player) :
    (weaponPass now head ws p).2.id = p.id := by
  induction ws generalizing p with
  | nil => rfl
  | cons w rest ih =>
    unfold weaponPass
    split
    · rw [ih]
      rw [Player.send_id]
    · exact ih p

@[simp] theorem weaponPass_snd_isAlive (now : Nat) (head : Pt) (ws : List WeaponItem) (p : Player) :
    (weaponPass now head ws p).2.isAlive = p.isAlive := by
  induction ws generalizing p with
  | nil => rfl
  | cons w rest ih =>
    unfold weaponPass
    split
    · rw [ih]
      rw [Player.send_isAlive]
    · exact ih p

@[simp] theorem weaponPass_snd_deaths (now : Nat) (head : Pt) (ws : List WeaponItem) (p : Player) :
    (weaponPass now head ws p).2.deaths = p.deaths := by
  induction ws generalizing p with
  | nil => rfl
  | cons w rest ih =>
    unfold weaponPass
    split
    · rw [ih]
      rw [Player.send_deaths]
    · exact ih p

/-- Claim C4 (amended): when an already-moved player's head cell is
covered by segments of several other alive players, the mover dies, but
every such owner - not only the first in lobby iteration order - is
credited a kill (+50 score, +1 kills), because the `return` inside the
source's `forEach` cannot break the walk; the victim's death counter is
incremented once per crediting owner (here: two owners, so deaths rises
by 2). -/
theorem kill_credit_all_owners (now : Nat) (lb : Lobby) (p q r : Player)
    (c : Pt) (tp : List Pt)
    (hlb : lb.players = [p, q, r])
    (hsnake : p.snake = c :: tp)
    (hqid : q.id ≠ p.id) (hrid : r.id ≠ p.id) (hqr : q.id ≠ r.id)
    (hqa : q.isAlive = true) (hra : r.isAlive = true)
    (hw1 : ¬ c.x < 0) (hw2 : ¬ c.x ≥ lb.gameSettings.boardSize)
    (hw3 : ¬ c.y < 0) (hw4 : ¬ c.y ≥ lb.gameSettings.boardSize)
    (hself : hitsCell c tp = false)
    (hhq : hitsCell c q.snake = true)
    (hhr : hitsCell c r.snake = true) :
    ((lb.checkCollisions now p.id).getPlayer q.id).map
        (fun u => (u.kills, u.score)) = some (q.kills + 1, q.score + 50) ∧
    ((lb.checkCollisions now p.id).getPlayer r.id).map
        (fun u => (u.kills, u.score)) = some (r.kills + 1, r.score + 50) ∧
    ((lb.checkCollisions now p.id).getPlayer p.id).map
        (fun u => (u.isAlive, u.deaths)) = some (false, p.deaths + 2) := by
  have hgp : lb.getPlayer p.id = some p := by
    unfold Lobby.getPlayer
    rw [hlb]
    simp [List.find?]
  unfold Lobby.checkCollisions
  rw [hgp]
  dsimp only
  rw [hsnake]
  dsimp only
  rw [if_neg (show ¬ (c.x < 0 ∨ c.x ≥ lb.gameSettings.boardSize ∨ c.y < 0 ∨ c.y ≥ lb.gameSettings.boardSize) by
    push_neg
    refine ⟨by omega, by omega, by omega, by omega⟩)]
  rw [if_neg (show ¬ selfHit c (c :: tp) = true by simp [selfHit, hself])]
  rw [hlb]
  simp only [othersPass, ne_eq, not_true_eq_false, false_and, if_false, hqa, hra, hhq, hhr,
    and_true, true_and, hqid, hrid, not_false_eq_true, if_true]
  have hpq : ¬ p.id = q.id := fun h => hqid h.symm
  have hpr : ¬ p.id = r.id := fun h => hrid h.symm
  have hrq : ¬ r.id = q.id := fun h => hqr h.symm
  refine ⟨?_, ?_, ?_⟩ <;>
    simp [Lobby.getPlayer, setById, List.find?, hqid, hrid, hqr, hpq, hpr, hrq]

/-- Claim C4 witness: the concrete three-player overlap at (10,10)
instantiates the amended claim. -/
theorem kill_credit_all_owners_witness :
    ((c4Lobby.checkCollisions 0 c4P.id).getPlayer c4Q.id).map
        (fun u => (u.kills, u.score)) = some (c4Q.kills + 1, c4Q.score + 50) ∧
    ((c4Lobby.checkCollisions 0 c4P.id).getPlayer c4R.id).map
        (fun u => (u.kills, u.score)) = some (c4R.kills + 1, c4R.score + 50) ∧
    ((c4Lobby.checkCollisions 0 c4P.id).getPlayer c4P.id).map
        (fun u => (u.isAlive, u.deaths)) = some (false, c4P.deaths + 2) :=
  kill_credit_all_owners 0 c4Lobby c4P c4Q c4R ⟨10,10⟩ [⟨9,10⟩, ⟨8,10⟩]
    rfl rfl (by decide) (by decide) (by decide) (by decide) (by decide)
    (by decide) (by decide) (by decide) (by decide) (by decide)
    (by decide) (by decide)

theorem foodPass_no_hit (head : Pt) (fs : List Food) (p : Player)
    (h : ∀ f ∈ fs, ¬(head.x = f.x ∧ head.y = f.y)) :
    foodPass head fs p = (fs, p) := by
  induction fs with
  | nil => rfl
  | cons f rest ih =>
    unfold foodPass
    rw [if_neg (h f (List.mem_cons_self f rest))]
    rw [ih (fun g hg => h g (List.mem_cons_of_mem f hg))]

theorem weaponPass_no_hit (now : Nat) (head : Pt) (ws : List WeaponItem) (p : Player)
    (h : ∀ w ∈ ws, ¬(head.x = w.x ∧ head.y = w.y)) :
    weaponPass now head ws p = (ws, p) := by
  induction ws with
  | nil => rfl
  | cons w rest ih =>
    unfold weaponPass
    rw [if_neg (h w (List.mem_cons_self w rest))]
    rw [ih (fun g hg => h g (List.mem_cons_of_mem w hg))]



/-- Claim C2 (amended): movement and collision resolution are
sequential within a tick.  In a two-player playing lobby where both
alive players' next head cell coincides (in bounds, on neither snake's
current body, no item there), the player earlier in iteration order
survives: the later player's head arrives after the earlier already
moved and finds the earlier player's head there, so only the later
player dies (+1 deaths), the earlier one is credited the kill (+50
score, +1 kills), and the game ends with the earlier player as winner
(`gamesWon + 1`, `game_ended` reports that winner, not null). -/
theorem head_on_sequential (now : Nat) (r : SpawnRands) (lb : Lobby)
    (a b : Player) (ha hb : Pt) (ta tb : List Pt) (c : Pt)
    (hlb : lb.players = [a, b])
    (hgs : lb.gameState = GameState.playing)
    (hab : a.id ≠ b.id)
    (haa : a.isAlive = true) (hba : b.isAlive = true)
    (hsa : a.snake = ha :: ta) (hsb : b.snake = hb :: tb)
    (hca : ({ x := ha.x + a.direction.x, y := ha.y + a.direction.y } : Pt) = c)
    (hcb : ({ x := hb.x + b.direction.x, y := hb.y + b.direction.y } : Pt) = c)
    (hw1 : ¬ c.x < 0) (hw2 : ¬ c.x ≥ lb.gameSettings.boardSize)
    (hw3 : ¬ c.y < 0) (hw4 : ¬ c.y ≥ lb.gameSettings.boardSize)
    (hnsa : hitsCell c (ha :: ta) = false)
    (hnsb : hitsCell c (hb :: tb) = false)
    (hfood : ∀ f ∈ lb.food, ¬(c.x = f.x ∧ c.y = f.y))
    (hweap : ∀ w ∈ lb.weapons, ¬(c.x = w.x ∧ c.y = w.y)) :
    (lb.updateGame now r).gameState = GameState.finished ∧
    (lb.updateGame now r).endedWinner = some (some a.id) ∧
    ((lb.updateGame now r).getPlayer a.id).map
        (fun u => (u.isAlive, u.kills, u.score, u.deaths, u.gamesWon)) =
      some (true, a.kills + 1, a.score + 50, a.deaths, a.gamesWon + 1) ∧
    ((lb.updateGame now r).getPlayer b.id).map
        (fun u => (u.isAlive, u.kills, u.deaths)) =
      some (false, b.kills, b.deaths + 1) := by
  have hba' : ¬ b.id = a.id := fun h => hab h.symm
  have hma : a.moveSnake = { a with snake := c :: ha :: ta } := by
    unfold Player.moveSnake
    rw [hsa, haa]
    dsimp only
    rw [hca]
  have hmb : b.moveSnake = { b with snake := c :: hb :: tb } := by
    unfold Player.moveSnake
    rw [hsb, hba]
    dsimp only
    rw [hcb]
  have hnb : hitsCell c b.snake = false := by rw [hsb]; exact hnsb
  have hnsa2 : selfHit c (c :: ha :: ta) = false := by simp [selfHit]; exact hnsa
  have hnsb2 : selfHit c (c :: hb :: tb) = false := by simp [selfHit]; exact hnsb
  have hmp : lb.movePlayerById a.id = { lb with players := [{ a with snake := c :: ha :: ta }, b] } := by
    unfold Lobby.movePlayerById Lobby.getPlayer
    rw [hlb]
    simp only [List.find?, eq_self_iff_true, decide_True]
    rw [hma]
    simp [Lobby.setPlayer, setById, hlb, hba']
  have hstepA : Lobby.checkCollisions now (lb.movePlayerById a.id) a.id =
      { lb with players := [{ a with snake := (c :: ha :: ta).dropLast }, b] } := by
    rw [hmp]
    unfold Lobby.checkCollisions Lobby.getPlayer
    simp only [List.find?, eq_self_iff_true, decide_True]
    rw [if_neg (show ¬ (c.x < 0 ∨ c.x ≥ lb.gameSettings.boardSize ∨ c.y < 0 ∨
        c.y ≥ lb.gameSettings.boardSize) by
      push_neg
      exact ⟨by omega, by omega, by omega, by omega⟩)]
    rw [if_neg (show ¬ selfHit c (c :: ha :: ta) = true by rw [hnsa2]; simp)]
    simp only [othersPass, ne_eq, not_true_eq_false, false_and, if_false, hnb, and_false]
    rw [foodPass_no_hit c lb.food _ hfood]
    dsimp only
    rw [weaponPass_no_hit now c lb.weapons _ hweap]
    simp [Player.removeTail, setById, hba']
  have hdrop : (c :: ha :: ta).dropLast = c :: (ha :: ta).dropLast := by
    simp [List.dropLast]
  have hstepB : Lobby.checkCollisions now
      (({ lb with players := [{ a with snake := (c :: ha :: ta).dropLast }, b] }
        : Lobby).movePlayerById b.id) b.id =
      { lb with players :=
          [Player.awardKill now { a with snake := (c :: ha :: ta).dropLast } b.id,
           (Player.kill now { b with snake := c :: hb :: tb } (some a.id)).removeTail] } := by
    have hmpB : ({ lb with players := [{ a with snake := (c :: ha :: ta).dropLast }, b] }
        : Lobby).movePlayerById b.id =
        { lb with players := [{ a with snake := (c :: ha :: ta).dropLast },
                              { b with snake := c :: hb :: tb }] } := by
      unfold Lobby.movePlayerById Lobby.getPlayer
      simp only [List.find?, eq_self_iff_true, decide_True, hab, decide_False]
      rw [hmb]
      simp [Lobby.setPlayer, setById, hab, hba']
    rw [hmpB]
    unfold Lobby.checkCollisions Lobby.getPlayer
    simp only [List.find?, eq_self_iff_true, decide_True, hab, decide_False]
    rw [if_neg (show ¬ (c.x < 0 ∨ c.x ≥ lb.gameSettings.boardSize ∨ c.y < 0 ∨
        c.y ≥ lb.gameSettings.boardSize) by
      push_neg
      exact ⟨by omega, by omega, by omega, by omega⟩)]
    rw [if_neg (show ¬ selfHit c (c :: hb :: tb) = true by rw [hnsb2]; simp)]
    simp only [othersPass, ne_eq, not_true_eq_false, false_and, if_false, hab,
      not_false_eq_true, haa, hdrop, hitsCell, eq_self_iff_true, if_true, true_and, and_true]
    rw [foodPass_no_hit c lb.food _ hfood]
    dsimp only
    rw [weaponPass_no_hit now c lb.weapons _ hweap]
    simp [Player.removeTail, setById, hba', hab]
  unfold Lobby.updateGame
  rw [hgs, if_neg (by simp)]
  have halive : lb.getAlivePlayers = [a, b] := by
    unfold Lobby.getAlivePlayers
    rw [hlb]
    simp [haa, hba]
  rw [halive]
  simp only [List.map, List.foldl]
  rw [hstepA, hstepB]
  have hwin : Lobby.checkWinCondition now { lb with players :=
      [Player.awardKill now { a with snake := (c :: ha :: ta).dropLast } b.id,
       (Player.kill now { b with snake := c :: hb :: tb } (some a.id)).removeTail] } = true := by
    unfold Lobby.checkWinCondition Lobby.getAlivePlayers
    simp [haa, hba]
  rw [if_pos hwin]
  refine ⟨?_, ?_, ?_, ?_⟩ <;>
    simp [Lobby.endGame, Lobby.getAlivePlayers, Lobby.broadcast, Lobby.setPlayer, setById,
      Lobby.getPlayer, List.find?, List.filter, haa, hba, hab, hba',
      Player.send_id, Player.send_isAlive, Player.send_kills, Player.send_score,
      Player.send_deaths, Player.send_gamesWon]

/-- Claim C2 witness: the concrete head-on scenario at (10,10)
instantiates the amended claim. -/
theorem head_on_sequential_witness :
    (c2Lobby.updateGame 1000 {}).gameState = GameState.finished ∧
    (c2Lobby.updateGame 1000 {}).endedWinner = some (some c2A.id) ∧
    ((c2Lobby.updateGame 1000 {}).getPlayer c2A.id).map
        (fun u => (u.isAlive, u.kills, u.score, u.deaths, u.gamesWon)) =
      some (true, c2A.kills + 1, c2A.score + 50, c2A.deaths, c2A.gamesWon + 1) ∧
    ((c2Lobby.updateGame 1000 {}).getPlayer c2B.id).map
        (fun u => (u.isAlive, u.kills, u.deaths)) =
      some (false, c2B.kills, c2B.deaths + 1) :=
  head_on_sequential 1000 {} c2Lobby c2A c2B ⟨9,10⟩ ⟨11,10⟩
    [⟨8,10⟩, ⟨7,10⟩] [⟨12,10⟩, ⟨13,10⟩] ⟨10,10⟩
    rfl rfl (by decide) rfl rfl rfl rfl (by decide) (by decide)
    (by decide) (by decide) (by decide) (by decide) (by decide)
    (by decide) (by decide) (by decide)

end SnakeGame
